import Mathlib

/-!
Shallow embedding of the task-management backend
(src/taskmanager: model, service, controller, core layers).

Python-level runtime behaviour that matters here is modelled explicitly:
attribute lookup on a module or on a Session object can fail with
AttributeError, resolving a free name in a module scope can fail with
NameError, and the SQLAlchemy declarative constructor rejects keyword
arguments that are not attributes of the mapped class with TypeError.
ORM instances are attribute dictionaries; a commit flushes only the
mapped columns back to the row, and plain (non-mapped) attributes set
on the instance are never persisted.
-/

namespace TaskManager

/-- Python attribute values stored in ORM attribute dictionaries. -/
inductive PyVal where
  | none
  | vInt (n : Int)
  | vStr (s : String)
  | vBool (b : Bool)
  deriving DecidableEq, Repr

/-- Python exceptions the embedded code can raise.  `http` is
fastapi.HTTPException with a status code and a detail message; the
others are ordinary Python runtime errors, which FastAPI surfaces as
opaque 500 responses when they escape a handler. -/
inductive PyExc where
  | http (status : Nat) (detail : String)
  | attributeError (missing : String)
  | nameError (missing : String)
  | typeError (msg : String)
  | integrityError (constraint : String)
  deriving DecidableEq, Repr

/-- Attribute dictionary of a Python object (insertion-ordered, as in
CPython). -/
abbrev Attrs := List (String × PyVal)

/-- Attribute read with Python None as default for a missing key. -/
def getattrD (a : Attrs) (k : String) : PyVal :=
  (List.lookup k a).getD PyVal.none

/-- Attribute write: replaces the value in place, or appends a new key
at the end, matching CPython dict update order. -/
def setattr : Attrs → String → PyVal → Attrs
  | [], k, v => [(k, v)]
  | (k', v') :: rest, k, v =>
    if k' = k then (k, v) :: rest else (k', v') :: setattr rest k v

/-- Attribute lookup on a module or object modelled by the list of
attribute names it exposes; a missing name raises AttributeError. -/
def getattrModule (attrs : List String) (name : String) : Except PyExc Unit :=
  if attrs.contains name then Except.ok () else Except.error (PyExc.attributeError name)

/-- Mapped columns of the Task model (model/task.py).  Note the source
declares the column `desciption`; there is no mapped column named
`description`. -/
def taskMappedAttrs : List String :=
  ["id", "user_id", "title", "desciption", "category", "priority",
   "is_completed", "due_date", "created_date"]

/-- Attributes exposed by a sqlalchemy.orm.Session, as used by this
repository.  There is no attribute `qury`. -/
def sessionAttrs : List String :=
  ["query", "add", "commit", "refresh", "delete", "close"]

/-- Request body for task creation and update (the TaskBase pydantic
schema in controller/task_controller.py; is_completed defaults to
false and description and due_date default to None at the schema
level). -/
structure TaskPayload where
  title : String
  description : Option String
  category : String
  priority : String
  is_completed : Bool
  due_date : Option Int
  deriving DecidableEq, Repr

/-- A Python Optional string as a PyVal. -/
def pyOptStr : Option String → PyVal
  | Option.none => PyVal.none
  | some s => PyVal.vStr s

/-- A Python Optional datetime (modelled as an integer instant) as a
PyVal. -/
def pyOptInt : Option Int → PyVal
  | Option.none => PyVal.none
  | some n => PyVal.vInt n

/-- db.query(Task).filter(Task.id == task_id, Task.user_id == user_id).first()
— the compound ownership filter shared by get, update and delete. -/
def taskFilterFirst (db : List Attrs) (task_id user_id : Int) : Option Attrs :=
  (db.filter (fun t =>
    getattrD t "id" == PyVal.vInt task_id && getattrD t "user_id" == PyVal.vInt user_id)).head?

/-- service/task_service.py get_task_service. -/
def get_task_service (db : List Attrs) (user_id task_id : Int) : Except PyExc Attrs :=
  match taskFilterFirst db task_id user_id with
  | Option.none => Except.error (PyExc.http 404 "Task not found")
  | some task => Except.ok task

/-- service/task_service.py get_all_task_service.  The body evaluates
`db.qury(Task)`: attribute lookup of `qury` on the Session object,
which raises AttributeError before any query runs.  Had the attribute
resolved (to `query`), the result would be the user-filtered list. -/
def get_all_task_service (db : List Attrs) (user_id : Int) : Except PyExc (List Attrs) :=
  match getattrModule sessionAttrs "qury" with
  | Except.error e => Except.error e
  | Except.ok _ =>
      Except.ok (db.filter (fun t => getattrD t "user_id" == PyVal.vInt user_id))

/-- The keyword arguments passed to the Task constructor at
service/task_service.py lines 17-25, in source order. -/
def createTaskKwargs (user_id : Int) (task : TaskPayload) : List (String × PyVal) :=
  [("user_id", PyVal.vInt user_id),
   ("title", PyVal.vStr task.title),
   ("description", pyOptStr task.description),
   ("category", PyVal.vStr task.category),
   ("priority", PyVal.vStr task.priority),
   ("is_completed", PyVal.vBool task.is_completed),
   ("due_date", pyOptInt task.due_date)]

/-- The SQLAlchemy declarative default constructor: walks the keyword
arguments in order and raises TypeError at the first one that is not
an attribute of the mapped class. -/
def declarativeInit (classAttrs : List String) : List (String × PyVal) → Except PyExc Attrs
  | [] => Except.ok []
  | (k, v) :: rest =>
    if classAttrs.contains k then
      match declarativeInit classAttrs rest with
      | Except.error e => Except.error e
      | Except.ok a => Except.ok ((k, v) :: a)
    else
      Except.error (PyExc.typeError (k ++ " is an invalid keyword argument for Task"))

/-- Fresh primary key assigned by the database on insert. -/
def freshTaskId (db : List Attrs) : Int :=
  (db.map (fun t => match getattrD t "id" with | PyVal.vInt n => n | _ => 0)).foldl max 0 + 1

/-- Commit flushes only mapped columns of the instance to the row. -/
def flushRow (inst : Attrs) : Attrs :=
  inst.filter (fun kv => taskMappedAttrs.contains kv.1)

/-- db.refresh reloads the mapped attributes of the instance from its
row; plain attributes stay on the instance untouched. -/
def refreshInstance (inst row : Attrs) : Attrs :=
  inst.map (fun kv => if taskMappedAttrs.contains kv.1 then (kv.1, getattrD row kv.1) else kv)

/-- service/task_service.py create_task_service.  The constructor call
`Task(user_id=..., title=..., description=..., ...)` passes the
keyword `description`, which is not an attribute of the mapped class
(the column is spelled `desciption`), so the declarative constructor
raises TypeError before any row is inserted.  The ok branch models
what the insert would do: commit assigns a fresh id and the
server-side defaults, then refresh returns the stored record. -/
def create_task_service (db : List Attrs) (user_id : Int) (task : TaskPayload) (now : Int) :
    Except PyExc (List Attrs × Attrs) :=
  match declarativeInit taskMappedAttrs (createTaskKwargs user_id task) with
  | Except.error e => Except.error e
  | Except.ok newtask =>
      let withId := setattr (setattr newtask "id" (PyVal.vInt (freshTaskId db)))
        "created_date" (PyVal.vInt now)
      let row := flushRow withId
      Except.ok (db ++ [row], refreshInstance withId row)

/-- service/task_service.py update_task_service: ownership-filtered
fetch, six attribute assignments taken verbatim from lines 36-41, then
commit and refresh.  The assignment `task.description = ...` targets a
name that is not a mapped column, so it creates a plain instance
attribute; the flush performed by commit writes only mapped columns,
leaving the stored `desciption` column unchanged. -/
def update_task_service (db : List Attrs) (user_id task_id : Int) (task_data : TaskPayload) :
    Except PyExc (List Attrs × Attrs) :=
  match taskFilterFirst db task_id user_id with
  | Option.none => Except.error (PyExc.http 404 "Task not found")
  | some task0 =>
      let t1 := setattr task0 "title" (PyVal.vStr task_data.title)
      let t2 := setattr t1 "description" (pyOptStr task_data.description)
      let t3 := setattr t2 "category" (PyVal.vStr task_data.category)
      let t4 := setattr t3 "priority" (PyVal.vStr task_data.priority)
      let t5 := setattr t4 "is_completed" (PyVal.vBool task_data.is_completed)
      let t6 := setattr t5 "due_date" (pyOptInt task_data.due_date)
      let row := flushRow t6
      let newDb := db.map (fun t =>
        if getattrD t "id" == getattrD row "id" then row else t)
      Except.ok (newDb, refreshInstance t6 row)

/-- service/task_service.py delete_task_service: same ownership filter,
then the row is deleted by primary key and a confirmation message is
returned. -/
def delete_task_service (db : List Attrs) (user_id task_id : Int) :
    Except PyExc (List Attrs × String) :=
  match taskFilterFirst db task_id user_id with
  | Option.none => Except.error (PyExc.http 404 "Task not found")
  | some workout =>
      Except.ok
        (db.filter (fun t => !(getattrD t "id" == getattrD workout "id")),
         "Task delete successfully")

/-- User rows (model/user.py): id, unique email, password hash,
creation timestamp. -/
structure UserRecord where
  id : Int
  email : String
  hashed_password : String
  created_date : Int
  deriving DecidableEq, Repr

/-- passlib CryptContext as used through `bcrypt_contex` in
core/deps.py: a hash function and a verify(plaintext, hash)
predicate. -/
structure CryptContext where
  hash : String → String
  verify : String → String → Bool

/-- Body of POST /auth/ (UserCreateRequest in
controller/auth_controller.py). -/
structure CreateUserRequest where
  email : String
  password : String
  deriving DecidableEq, Repr

/-- Names bound at module scope in service/auth_service.py: the
module imports of lines 1-5 and the three functions.  The name
`Use` is not among them. -/
def authServiceGlobals : List String :=
  ["datetime", "timedelta", "timezone", "jwt", "Session", "User", "settings",
   "create_user_service", "authenticate_user_service", "create_access_token_service"]

/-- db.query(User).filter(User.email == email).first() -/
def usersFilterFirst (db : List UserRecord) (email : String) : Option UserRecord :=
  (db.filter (fun u => u.email == email)).head?

/-- Fresh primary key for a user insert. -/
def freshUserId (db : List UserRecord) : Int :=
  (db.map (fun u => u.id)).foldl max 0 + 1

/-- service/auth_service.py create_user_service.  The body evaluates
the free name `Use`, which is not bound in the module scope (the
the import binds `User`), so the call raises NameError before any row
is
constructed.  The ok branch models what `User(...)` plus add/commit
would do, with the unique-email constraint surfacing as an
IntegrityError. -/
def create_user_service (req : CreateUserRequest) (db : List UserRecord)
    (ctx : CryptContext) (now : Int) : Except PyExc (List UserRecord) :=
  if authServiceGlobals.contains "Use" then
    if db.any (fun u => u.email == req.email) then
      Except.error (PyExc.integrityError "users.email")
    else
      Except.ok (db ++ [⟨freshUserId db, req.email, ctx.hash req.password, now⟩])
  else
    Except.error (PyExc.nameError "Use")

/-- service/auth_service.py authenticate_user_service: Python returns
False (here: none) for an unknown email and for a failed hash
verification, and the User on success. -/
def authenticate_user_service (email password : String) (db : List UserRecord)
    (ctx : CryptContext) : Option UserRecord :=
  match usersFilterFirst db email with
  | Option.none => Option.none
  | some user =>
      if ctx.verify password user.hashed_password then some user else Option.none

/-- JWT claim set produced by create_access_token_service:
{"sub": email, "id": user_id, "exp": expires}. -/
structure JWTPayload where
  sub : Option String
  idClaim : Option Int
  exp : Int
  deriving DecidableEq, Repr

/-- Value of the jwt cookie: either a well-formed token signed with a
secret and algorithm, or an arbitrary malformed string. -/
inductive Tok where
  | signed (payload : JWTPayload) (secret : String) (alg : String)
  | malformed (s : String)
  deriving DecidableEq, Repr

/-- service/auth_service.py create_access_token_service: payload
{sub, id, exp = now + expire_delta} signed with the configured secret
and algorithm.  The source reads both from the module-global settings
dictionary; they are passed explicitly here (their loading is
modelled by get_settings below). -/
def create_access_token_service (email : String) (user_id : Int)
    (now expire_delta : Int) (secret alg : String) : Tok :=
  Tok.signed ⟨some email, some user_id, now + expire_delta⟩ secret alg

/-- Attributes of the jose.jwt module.  It exposes `decode`, not
`decod`. -/
def joseJwtAttrs : List String :=
  ["encode", "decode", "get_unverified_header", "get_unverified_claims"]

/-- jose.jwt.decode semantics: JWTError (modelled as Unit) on a
malformed token, a signature or algorithm mismatch, or an expired
token; the claim set otherwise. -/
def jwtDecode (t : Tok) (secret : String) (algs : List String) (now : Int) :
    Except Unit JWTPayload :=
  match t with
  | Tok.malformed _ => Except.error ()
  | Tok.signed payload s a =>
      if s == secret && algs.contains a then
        if now < payload.exp then Except.ok payload else Except.error ()
      else
        Except.error ()

/-- Verified caller identity: the {"email", "id"} dict returned by
get_current_user. -/
structure Identity where
  email : String
  id : Int
  deriving DecidableEq, Repr

/-- core/deps.py get_current_user.  A missing jwt cookie raises
HTTPException 401 "Token not found in cookies".  Otherwise the try
block evaluates `jwt.decod(...)`: attribute lookup of `decod` on the
jose jwt module, which raises AttributeError.  AttributeError is not a
JWTError, so the except clause does not catch it and it escapes the
handler.  The ok branch models the rest of the try block as written:
decode, extract sub and id, reject a null pair with 401 "Invalid token
payload", return the identity; JWTError is caught and mapped to 401
"Invalid or expired token". -/
def get_current_user (cookies : List (String × Tok)) (secret alg : String) (now : Int) :
    Except PyExc Identity :=
  match List.lookup "jwt" cookies with
  | Option.none => Except.error (PyExc.http 401 "Token not found in cookies")
  | some token =>
      match getattrModule joseJwtAttrs "decod" with
      | Except.error e => Except.error e
      | Except.ok _ =>
          match jwtDecode token secret [alg] now with
          | Except.error () => Except.error (PyExc.http 401 "Invalid or expired token")
          | Except.ok payload =>
              match payload.sub, payload.idClaim with
              | some email, some uid => Except.ok ⟨email, uid⟩
              | _, _ => Except.error (PyExc.http 401 "Invalid token payload")

/-- Successful response of POST /auth/token: the body and the jwt
cookie set on the response. -/
structure TokenResponse where
  auth_token : Tok
  token_type : String
  cookie : String × Tok
  deriving DecidableEq, Repr

/-- controller/auth_controller.py login: authenticate, raise 401
"Could not validate user" on failure, otherwise issue a token with a
60-minute ttl and set it as the jwt cookie. -/
def login (username password : String) (db : List UserRecord) (ctx : CryptContext)
    (now : Int) (secret alg : String) : Except PyExc TokenResponse :=
  match authenticate_user_service username password db ctx with
  | Option.none => Except.error (PyExc.http 401 "Could not validate user")
  | some user =>
      let token := create_access_token_service user.email user.id now (60 * 60) secret alg
      Except.ok ⟨token, "bearer", ("jwt", token)⟩

/-- Attributes of the os module relevant here: it exposes `getenv`,
not `getnv`. -/
def osAttrs : List String := ["getenv", "environ", "path", "name"]

/-- The settings dictionary built by core/config.py get_settings. -/
structure Settings where
  HOST : String
  PORT : Int
  APP_NAME : String
  APP_VERSION : String
  APP_DESCRIPTION : String
  ENVIRONMENT : String
  DEBUG : Bool
  FRONTEND_URL : String
  DATABASE_URL : Option String
  AUTH_SECRET_KEY : Option String
  AUTH_ALGORITHM : String
  deriving DecidableEq, Repr

/-- os.getenv with a default. -/
def getenvD (env : List (String × String)) (k d : String) : String :=
  (List.lookup k env).getD d

/-- core/config.py get_settings, evaluated once at module import.  The
dict literal evaluates its entries in source order; the first entry
calls `os.getnv("HOST", ...)`, and the os module has no attribute
`getnv`, so construction raises AttributeError before any key is
produced.  The ok branch models the remaining entries as written
(PORT via int() of the variable when it parses, DEBUG by lowercase
comparison with "true", DATABASE_URL and AUTH_SECRET_KEY with no
default). -/
def get_settings (env : List (String × String)) : Except PyExc Settings :=
  match getattrModule osAttrs "getnv" with
  | Except.error e => Except.error e
  | Except.ok _ =>
      Except.ok
        { HOST := getenvD env "HOST" "127.0.0.1"
          PORT := ((List.lookup "PORT" env).bind String.toInt?).getD 8000
          APP_NAME := getenvD env "APP_NAME" "Workout Tracker API"
          APP_VERSION := getenvD env "APP_VERSION" "1.0.0"
          APP_DESCRIPTION := getenvD env "APP_DESCRIPTION" "Backend for workout tracking"
          ENVIRONMENT := getenvD env "ENVIRONMENT" "development"
          DEBUG := (getenvD env "DEBUG" "false").toLower == "true"
          FRONTEND_URL := getenvD env "FRONTEND_URL" "http://localhost:3000"
          DATABASE_URL := List.lookup "DATABASE_URL" env
          AUTH_SECRET_KEY := List.lookup "AUTH_SECRET_KEY" env
          AUTH_ALGORITHM := getenvD env "AUTH_ALGORITHM" "HS256" }

/-- One segment of a route path pattern: a literal, or a path
parameter converted to int after the pattern matches. -/
inductive Seg where
  | lit (s : String)
  | intParam (pname : String)
  deriving DecidableEq, Repr

/-- GET routes of the taskmanager router in registration order
(controller/task_controller.py): "/{task_id}" is registered at line 33,
before "/tasks" at line 38. -/
def taskRouterGetPaths : List (List Seg) :=
  [[Seg.intParam "task_id"], [Seg.lit "tasks"]]

/-- A pattern segment matches a concrete path segment; a path
parameter matches any segment text (type conversion happens only after
the route is selected). -/
def segMatches : Seg → String → Bool
  | Seg.lit l, p => l == p
  | Seg.intParam _, _ => true

/-- A full pattern matches a concrete path. -/
def pathMatches : List Seg → List String → Bool
  | [], [] => true
  | s :: ps, x :: xs => segMatches s x && pathMatches ps xs
  | _, _ => false

/-- Starlette routing: the first registered route whose pattern
matches the request path wins. -/
def matchRoute (paths : List (List Seg)) (req : List String) : Option Nat :=
  paths.findIdx? (fun p => pathMatches p req)

/-- ASCII digit test used by the path-parameter integer conversion. -/
def isAsciiDigit (c : Char) : Bool :=
  48 ≤ c.toNat && c.toNat ≤ 57

/-- Integer value of a digit string. -/
def digitsVal (cs : List Char) : Int :=
  cs.foldl (fun a c => a * 10 + ((c.toNat : Int) - 48)) 0

/-- Conversion of a matched path segment to the declared int type
(pydantic coercion of the `task_id: int` parameter): an optional sign
followed by at least one digit; anything else is a validation failure
(HTTP 422). -/
def intPathParamConvert (s : String) : Option Int :=
  match s.data with
  | [] => Option.none
  | '-' :: rest =>
      if rest ≠ [] ∧ rest.all isAsciiDigit then some (-(digitsVal rest)) else Option.none
  | l =>
      if l.all isAsciiDigit then some (digitsVal l) else Option.none

/-! Theorems -/

/-- C1: for distinct users A and B and any task owned by A, calling
GetTask, UpdateTask or DeleteTask with the identity of B and the id of
that task fails with HTTPException 404 "Task not found" and neither
returns nor modifies nor deletes the task: each of the three services
filters by both the task id and the owner id, so the ownership filter
comes up empty.  The hypothesis hpk is primary-key uniqueness in the
form needed: every row carrying that id belongs to A. -/
theorem cross_user_task_access_is_not_found
    (db : List Attrs) (A B tid : Int) (t : Attrs) (payload : TaskPayload)
    (hAB : A ≠ B) (ht : t ∈ db)
    (howner : getattrD t "user_id" = PyVal.vInt A)
    (htid : getattrD t "id" = PyVal.vInt tid)
    (hpk : ∀ t' ∈ db, getattrD t' "id" = PyVal.vInt tid →
      getattrD t' "user_id" = PyVal.vInt A) :
    get_task_service db B tid = Except.error (PyExc.http 404 "Task not found") ∧
    update_task_service db B tid payload = Except.error (PyExc.http 404 "Task not found") ∧
    delete_task_service db B tid = Except.error (PyExc.http 404 "Task not found") := by
  have hfilter : db.filter (fun t' =>
      getattrD t' "id" == PyVal.vInt tid && getattrD t' "user_id" == PyVal.vInt B) = [] := by
    apply List.filter_eq_nil_iff.mpr
    intro a ha hp
    rw [Bool.and_eq_true, beq_iff_eq, beq_iff_eq] at hp
    have hA := hpk a ha hp.1
    rw [hA] at hp
    exact hAB (by injection hp.2)
  have hnone : taskFilterFirst db tid B = Option.none := by
    unfold taskFilterFirst
    rw [hfilter]
    rfl
  refine ⟨?_, ?_, ?_⟩ <;>
    simp [get_task_service, update_task_service, delete_task_service, hnone]

/-- Concrete database for the C1 witness: one task with id 10 owned by
user 1. -/
def isoTask : Attrs :=
  [("id", PyVal.vInt 10), ("user_id", PyVal.vInt 1), ("title", PyVal.vStr "a"),
   ("desciption", PyVal.none), ("category", PyVal.vStr "work"),
   ("priority", PyVal.vStr "low"), ("is_completed", PyVal.vBool false),
   ("due_date", PyVal.none), ("created_date", PyVal.vInt 0)]

/-- Update payload used by the C1 witness. -/
def isoPayload : TaskPayload :=
  { title := "b", description := Option.none, category := "work",
    priority := "low", is_completed := false, due_date := Option.none }

/-- Witness for C1: user 2 cannot read, update or delete task 10 owned
by user 1. -/
theorem cross_user_task_access_is_not_found_witness :
    get_task_service [isoTask] 2 10 = Except.error (PyExc.http 404 "Task not found") ∧
    update_task_service [isoTask] 2 10 isoPayload
      = Except.error (PyExc.http 404 "Task not found") ∧
    delete_task_service [isoTask] 2 10 = Except.error (PyExc.http 404 "Task not found") :=
  cross_user_task_access_is_not_found [isoTask] 1 2 10 isoTask isoPayload
    (by decide) (by decide) (by decide) (by decide) (by decide)

/-- C2: verifying a token produced by create_access_token_service
never returns the identity, neither immediately after issuance nor
after the ttl has elapsed: with the jwt cookie present,
get_current_user evaluates `jwt.decod`, the jose jwt module has no
attribute `decod`, and the resulting AttributeError is not a JWTError,
so it escapes instead of any identity or 401 being returned. -/
theorem token_roundtrip_crashes (email : String) (uid : Int)
    (now ttl elapsed : Int) (secret alg : String) :
    get_current_user [("jwt", create_access_token_service email uid now ttl secret alg)]
        secret alg now
      = Except.error (PyExc.attributeError "decod") ∧
    get_current_user [("jwt", create_access_token_service email uid now ttl secret alg)]
        secret alg (now + ttl + elapsed)
      = Except.error (PyExc.attributeError "decod") :=
  ⟨rfl, rfl⟩

/-- C3: the gate returns HTTPException 401 only when the jwt cookie is
absent; whenever a cookie is present — malformed or otherwise — the
body raises AttributeError at `jwt.decod`, which is not an HTTP 401 of
any detail, so invalid and expired tokens are not rejected with
401. -/
theorem auth_gate_statuses (secret alg : String) (now : Int) (s : String) :
    get_current_user [] secret alg now
      = Except.error (PyExc.http 401 "Token not found in cookies") ∧
    get_current_user [("jwt", Tok.malformed s)] secret alg now
      = Except.error (PyExc.attributeError "decod") ∧
    ∀ d : String, PyExc.attributeError "decod" ≠ PyExc.http 401 d :=
  ⟨rfl, rfl, fun _ h => PyExc.noConfusion h⟩

/-- C4: create_task_service raises TypeError for every input: the
constructor call passes the keyword `description`, which is not an
attribute of the mapped Task class (the column is spelled
`desciption`), so no task is ever persisted or returned. -/
theorem create_task_raises_type_error (db : List Attrs) (uid : Int)
    (p : TaskPayload) (now : Int) :
    create_task_service db uid p now =
      Except.error (PyExc.typeError "description is an invalid keyword argument for Task") :=
  rfl

/-- C5: create_user_service raises NameError for every input: the body
references the undefined name `Use` (the import binds `User`), so the
first registration never persists a row and a second registration with
the same email raises the same NameError rather than a
ConflictError. -/
theorem register_raises_name_error (req : CreateUserRequest) (db : List UserRecord)
    (ctx : CryptContext) (now : Int) :
    create_user_service req db ctx now = Except.error (PyExc.nameError "Use") :=
  rfl

/-- C6: get_all_task_service raises AttributeError for every database
and user, because the Session object has no attribute `qury`; in
addition, the request path /taskmanager/tasks is captured by the
earlier-registered route /{task_id} (index 0), whose int conversion of
the segment "tasks" fails, so requests for the list never reach the
list handler in the first place. -/
theorem list_tasks_crashes (db : List Attrs) (uid : Int) :
    get_all_task_service db uid = Except.error (PyExc.attributeError "qury") ∧
    matchRoute taskRouterGetPaths ["tasks"] = some 0 ∧
    taskRouterGetPaths.head? = some [Seg.intParam "task_id"] ∧
    intPathParamConvert "tasks" = Option.none :=
  ⟨rfl, rfl, rfl, by decide⟩

/-- Stored task used for C7: description column holds "X". -/
def c7Task : Attrs :=
  [("id", PyVal.vInt 1), ("user_id", PyVal.vInt 7), ("title", PyVal.vStr "t"),
   ("desciption", PyVal.vStr "X"), ("category", PyVal.vStr "work"),
   ("priority", PyVal.vStr "low"), ("is_completed", PyVal.vBool false),
   ("due_date", PyVal.none), ("created_date", PyVal.vInt 0)]

/-- Update payload used for C7: description omitted (None). -/
def c7Payload : TaskPayload :=
  { title := "t2", description := Option.none, category := "work",
    priority := "high", is_completed := true, due_date := Option.none }

/-- C7: UpdateTask does not full-replace the stored description.  On a
task whose stored `desciption` column holds "X", an update whose
payload omits the description succeeds and replaces the title, yet the
stored `desciption` column still holds "X": the assignment
`task.description = ...` creates a plain instance attribute (holding
None here) that the commit never flushes, because `description` is not
a mapped column. -/
theorem update_task_retains_stored_description :
    ((update_task_service [c7Task] 7 1 c7Payload).toOption.map
      (fun r => (getattrD (r.1.headD []) "desciption",
                 getattrD (r.1.headD []) "title",
                 getattrD r.2 "description")))
    = some (PyVal.vStr "X", PyVal.vStr "t2", PyVal.none) := by
  decide

/-- C8: with correct credentials authenticate_user_service returns the
user, while a login with an unknown email and a login with a known
email but wrong password both fail with the same HTTPException 401
"Could not validate user" — the two failure paths are observably
identical to the caller. -/
theorem login_failure_paths_identical
    (db : List UserRecord) (ctx : CryptContext) (now : Int) (secret alg : String)
    (eU pU : String) (hU : usersFilterFirst db eU = Option.none)
    (eK pK : String) (u : UserRecord) (hK : usersFilterFirst db eK = some u)
    (hW : ctx.verify pK u.hashed_password = false)
    (eC pC : String) (v : UserRecord) (hC : usersFilterFirst db eC = some v)
    (hV : ctx.verify pC v.hashed_password = true) :
    login eU pU db ctx now secret alg
      = Except.error (PyExc.http 401 "Could not validate user") ∧
    login eK pK db ctx now secret alg
      = Except.error (PyExc.http 401 "Could not validate user") ∧
    authenticate_user_service eC pC db ctx = some v := by
  refine ⟨?_, ?_, ?_⟩ <;>
    simp [login, authenticate_user_service, hU, hK, hW, hC, hV]

/-- Concrete crypt context for the C8 witness: hash appends a marker
and verify checks it. -/
def exCtx : CryptContext :=
  { hash := fun p => String.append p "#",
    verify := fun p h => h == String.append p "#" }

/-- Concrete user row for the C8 witness. -/
def exUser : UserRecord :=
  { id := 1, email := "a@x.com", hashed_password := "pw#", created_date := 0 }

/-- Witness for C8: on a store holding only a@x.com with password pw,
an unknown email and a wrong password produce the identical 401, and
the correct password authenticates. -/
theorem login_failure_paths_identical_witness :
    login "b@x.com" "z" [exUser] exCtx 0 "sec" "HS256"
      = Except.error (PyExc.http 401 "Could not validate user") ∧
    login "a@x.com" "bad" [exUser] exCtx 0 "sec" "HS256"
      = Except.error (PyExc.http 401 "Could not validate user") ∧
    authenticate_user_service "a@x.com" "pw" [exUser] exCtx = some exUser :=
  login_failure_paths_identical [exUser] exCtx 0 "sec" "HS256"
    "b@x.com" "z" rfl "a@x.com" "bad" exUser rfl rfl "a@x.com" "pw" exUser rfl rfl

/-- C9: even a correctly signed token whose payload carries a non-null
subject email and id never yields the identity: the gate crashes with
AttributeError at `jwt.decod` for every such token (the gate consults
no user store — it takes none — but it also never returns). -/
theorem gate_never_returns_identity (e : String) (uid exp : Int)
    (secret alg : String) (now : Int) :
    get_current_user [("jwt", Tok.signed ⟨some e, some uid, exp⟩ secret alg)]
        secret alg now
      = Except.error (PyExc.attributeError "decod") :=
  rfl

/-- C10: get_settings raises AttributeError for every environment: the
first entry of the dict literal calls `os.getnv`, and the os module
has no such attribute, so the module-level `settings = get_settings()`
raises at import and the settings dictionary is never produced. -/
theorem get_settings_raises_attribute_error (env : List (String × String)) :
    get_settings env = Except.error (PyExc.attributeError "getnv") :=
  rfl

end TaskManager
